import Mathlib

/-!
Verification of the key-unwrap core of `kbs2` (`src/kbs2/config.rs`):
the shared-memory naming scheme `Config::unwrapped_key_shm_name` and the
transactional `Config::unwrap_keyfile`.

Bytes are modelled as `Nat` values below 256, byte strings as `List Nat`.
The SHA-256 implementation below embeds the behaviour of the `sha2` crate's
`Sha256::digest` (FIPS 180-4), and the hex encoding embeds the `generic-array`
`LowerHex` formatting used by `format!("{:x}", digest)` (two lowercase hex
digits per byte). Everything is structurally recursive so that concrete
instances evaluate inside the kernel.
-/

/-! ## 32-bit arithmetic helpers (wrapping semantics of `u32`) -/

/-- Truncate to a 32-bit word, the wrapping behaviour of `u32` arithmetic. -/
def w32 (x : Nat) : Nat := x % 4294967296

/-- Right rotation of a 32-bit word. -/
def rotr (n z : Nat) : Nat := w32 ((z >>> n) ||| (z <<< (32 - n)))

/-- Bitwise complement within 32 bits. -/
def not32 (x : Nat) : Nat := x ^^^ 4294967295

/-- SHA-256 `Ch(x,y,z)`. -/
def ch (e f g : Nat) : Nat := (e &&& f) ^^^ (not32 e &&& g)

/-- SHA-256 `Maj(x,y,z)`. -/
def maj (u v w : Nat) : Nat := (u &&& v) ^^^ (u &&& w) ^^^ (v &&& w)

/-- SHA-256 `Σ₀`. -/
def bsig0 (x : Nat) : Nat := rotr 2 x ^^^ rotr 13 x ^^^ rotr 22 x

/-- SHA-256 `Σ₁`. -/
def bsig1 (x : Nat) : Nat := rotr 6 x ^^^ rotr 11 x ^^^ rotr 25 x

/-- SHA-256 `σ₀`. -/
def ssig0 (x : Nat) : Nat := rotr 7 x ^^^ rotr 18 x ^^^ (x >>> 3)

/-- SHA-256 `σ₁`. -/
def ssig1 (x : Nat) : Nat := rotr 17 x ^^^ rotr 19 x ^^^ (x >>> 10)

/-! ## SHA-256 proper -/

/-- The eight SHA-256 initial hash values, as one state record. -/
structure Sha256State where
  a : Nat
  b : Nat
  c : Nat
  d : Nat
  e : Nat
  f : Nat
  g : Nat
  h : Nat
deriving Repr, DecidableEq

/-- Initial hash state `H₀ … H₇` of FIPS 180-4, section 5.3.3. -/
def sha256Init : Sha256State :=
  ⟨1779033703, 3144134277, 1013904242, 2773480762,
   1359893119, 2600822924, 528734635, 1541459225⟩

/-- Round constants `K₀ … K₆₃` of FIPS 180-4, section 4.2.2, in decimal. -/
def K256 : List Nat :=
  [1116352408, 1899447441, 3049323471, 3921009573, 961987163,
   1508970993, 2453635748, 2870763221, 3624381080, 310598401,
   607225278, 1426881987, 1925078388, 2162078206, 2614888103,
   3248222580, 3835390401, 4022224774, 264347078, 604807628,
   770255983, 1249150122, 1555081692, 1996064986, 2554220882,
   2821834349, 2952996808, 3210313671, 3336571891, 3584528711,
   113926993, 338241895, 666307205, 773529912, 1294757372,
   1396182291, 1695183700, 1986661051, 2177026350, 2456956037,
   2730485921, 2820302411, 3259730800, 3345764771, 3516065817,
   3600352804, 4094571909, 275423344, 430227734, 506948616,
   659060556, 883997877, 958139571, 1322822218, 1537002063,
   1747873779, 1955562222, 2024104815, 2227730452, 2361852424,
   2428436474, 2756734187, 3204031479, 3329325298]

/-- Assemble a big-endian 32-bit word from four bytes. -/
def bytesToWord (a b c d : Nat) : Nat := ((a * 256 + b) * 256 + c) * 256 + d

/-- Split a 64-byte block into its sixteen big-endian message words. -/
def blockWords : List Nat → List Nat
  | a :: b :: c :: d :: rest => bytesToWord a b c d :: blockWords rest
  | _ => []

/-- One extension step of the message schedule: append
`σ₁(w[t-2]) + w[t-7] + σ₀(w[t-15]) + w[t-16]` to the schedule built so far. -/
def scheduleStep (ws : List Nat) : List Nat :=
  ws ++ [w32 (ssig1 (ws.getD (ws.length - 2) 0) + ws.getD (ws.length - 7) 0 +
              ssig0 (ws.getD (ws.length - 15) 0) + ws.getD (ws.length - 16) 0)]

/-- Apply `scheduleStep` a given number of times (48 for the full schedule). -/
def extendW : Nat → List Nat → List Nat
  | 0, ws => ws
  | n + 1, ws => extendW n (scheduleStep ws)

/-- One SHA-256 compression round, consuming one `(Kₜ, Wₜ)` pair. -/
def sha256Round (st : Sha256State) (kw : Nat × Nat) : Sha256State :=
  let t1 := w32 (st.h + bsig1 st.e + ch st.e st.f st.g + kw.1 + kw.2)
  let t2 := w32 (bsig0 st.a + maj st.a st.b st.c)
  ⟨w32 (t1 + t2), st.a, st.b, st.c, w32 (st.d + t1), st.e, st.f, st.g⟩

/-- Compression of one 64-byte block into the running state, FIPS 180-4
section 6.2.2. -/
def compressBlock (st : Sha256State) (block : List Nat) : Sha256State :=
  let ws := extendW 48 (blockWords block)
  let st2 := (K256.zip ws).foldl sha256Round st
  ⟨w32 (st.a + st2.a), w32 (st.b + st2.b), w32 (st.c + st2.c), w32 (st.d + st2.d),
   w32 (st.e + st2.e), w32 (st.f + st2.f), w32 (st.g + st2.g), w32 (st.h + st2.h)⟩

/-- Compress `n` consecutive 64-byte blocks taken from the front of `l`.
The fuel `n` is the block count of the already-padded message, which keeps the
recursion structural (and hence kernel-computable). -/
def compressN : Nat → Sha256State → List Nat → Sha256State
  | 0, st, _ => st
  | n + 1, st, l => compressN n (compressBlock st (l.take 64)) (l.drop 64)

/-- Big-endian 8-byte serialization of the 64-bit message bit length. -/
def lenBytes (n : Nat) : List Nat :=
  [(n >>> 56) % 256, (n >>> 48) % 256, (n >>> 40) % 256, (n >>> 32) % 256,
   (n >>> 24) % 256, (n >>> 16) % 256, (n >>> 8) % 256, n % 256]

/-- Message padding per FIPS 180-4, section 5.1.1: a marker byte 128, zero
bytes until the length is 56 mod 64, then the bit length in eight big-endian
bytes. -/
def padMessage (msg : List Nat) : List Nat :=
  msg ++ 128 :: List.replicate ((119 - msg.length % 64) % 64) 0 ++ lenBytes (8 * msg.length)

/-- Big-endian 4-byte serialization of a 32-bit state word. -/
def wordBytes (w : Nat) : List Nat :=
  [(w >>> 24) % 256, (w >>> 16) % 256, (w >>> 8) % 256, w % 256]

/-- Serialize the eight-word state to the 32-byte digest. -/
def digestBytes (st : Sha256State) : List Nat :=
  wordBytes st.a ++ wordBytes st.b ++ wordBytes st.c ++ wordBytes st.d ++
  wordBytes st.e ++ wordBytes st.f ++ wordBytes st.g ++ wordBytes st.h

/-- SHA-256 of a byte string, as the 32-byte digest. This embeds the `sha2`
crate's `Sha256::digest` as called by `Config::unwrapped_key_shm_name`. -/
def sha256 (msg : List Nat) : List Nat :=
  digestBytes (compressN ((padMessage msg).length / 64) sha256Init (padMessage msg))

/-! ## Hex encoding of the digest

This embeds `format!("{:x}", digest)` on the `sha2` digest output: the
`generic-array` `LowerHex` instance writes every byte as exactly two lowercase
hex digits (high nibble first, zero-padded). -/

/-- The lowercase hex digit for a nibble value. -/
def nibbleChar (d : Nat) : Char :=
  if d < 10 then Char.ofNat (48 + d) else Char.ofNat (87 + d)

/-- The two lowercase hex digits of one byte, high nibble first. -/
def byteToHex (b : Nat) : List Char :=
  [nibbleChar ((b / 16) % 16), nibbleChar (b % 16)]

/-- Lowercase hex encoding of a byte string, two digits per byte. -/
def hexEncode : List Nat → List Char
  | [] => []
  | b :: rest => byteToHex b ++ hexEncode rest

/-! ## The naming scheme (`Config::unwrapped_key_shm_name`)

The Rust code canonicalizes `self.keyfile` (a filesystem effect, modelled here
as an explicit `canonicalize` oracle returning the raw bytes of the canonical
path, or `none` on failure), formats
`format!("{}_{:x}", UNWRAPPED_KEY_SHM_BASENAME, Sha256::digest(bytes))`, and
then calls `String::truncate(31)`. The name is pure ASCII, so Rust's byte-index
truncation coincides with the character-level `List.take 31` used here. -/

/-- The basename for the POSIX shared memory object in which the unwrapped key
is stored (`UNWRAPPED_KEY_SHM_BASENAME` in `config.rs`). -/
def UNWRAPPED_KEY_SHM_BASENAME : String := "/_kbs2_uk"

/-- The fields of the `kbs2` `Config` structure that the unwrap core reads.
The hook, generator and per-command tables of the Rust structure are carried
by the same record in the source but never touched by the functions modelled
here, so they are omitted. -/
structure Config where
  config_dir : String
  public_key : String
  keyfile : String
  wrapped : Bool
  store : String
deriving Repr, DecidableEq

/-- Rust's `String::truncate`: keep at most the first `n` units. All strings
truncated in this development are ASCII, where Rust's byte count and the
character count below agree. -/
def strTruncate (s : String) (n : Nat) : String := String.mk (s.data.take n)

/-- The identifier for the shared memory object caching the unwrapped key,
embedding `Config::unwrapped_key_shm_name`: hash the canonical keyfile path,
hex-format it after the basename and an underscore, truncate to 31 bytes
(the macOS `PSHMNAMELEN` limit). `none` models the `?` propagation of a
`fs::canonicalize` failure. -/
def unwrapped_key_shm_name (canonicalize : String → Option (List Nat))
    (cfg : Config) : Option String :=
  match canonicalize cfg.keyfile with
  | none => none
  | some canonBytes =>
      some (strTruncate
        (UNWRAPPED_KEY_SHM_BASENAME ++ "_" ++ String.mk (hexEncode (sha256 canonBytes))) 31)

/-- The naming construction exactly as the specification words it: the fixed
namespace tag prepended to the hex encoding of the SHA-256 digest of the
canonical path's raw bytes, the final string truncated to the 31-byte platform
limit. Stated independently of the source formulation for refinement. -/
def spec_shm_name (canonBytes : List Nat) : String :=
  String.mk (("/_kbs2_uk_".data ++ hexEncode (sha256 canonBytes)).take 31)

/-! ## UTF-8 validity

`unwrap_keyfile` funnels the decrypted stream through `Read::read_to_string`
into a Rust `String`; that call fails with an `InvalidData` error exactly when
the bytes are not valid UTF-8. The validator below is the RFC 3629 / Rust core
byte-level automaton. -/

/-- Whether a byte is a UTF-8 continuation byte (`0x80 ..= 0xbf`). -/
def isCont (b : Nat) : Bool := 128 ≤ b && b ≤ 191

/-- The Rust `str` UTF-8 validity check (RFC 3629 shortest-form ranges,
surrogates excluded), byte by byte. -/
def isValidUTF8 : List Nat → Bool
  | [] => true
  | b :: rest =>
    if b ≤ 0x7f then isValidUTF8 rest
    else match rest with
      | [] => false
      | c :: rest2 =>
        if 0xc2 ≤ b && b ≤ 0xdf then isCont c && isValidUTF8 rest2
        else match rest2 with
          | [] => false
          | d :: rest3 =>
            if b = 0xe0 then (0xa0 ≤ c && c ≤ 0xbf) && isCont d && isValidUTF8 rest3
            else if 0xe1 ≤ b && b ≤ 0xec then isCont c && isCont d && isValidUTF8 rest3
            else if b = 0xed then (0x80 ≤ c && c ≤ 0x9f) && isCont d && isValidUTF8 rest3
            else if 0xee ≤ b && b ≤ 0xef then isCont c && isCont d && isValidUTF8 rest3
            else match rest3 with
              | [] => false
              | e :: rest4 =>
                if b = 0xf0 then
                  (0x90 ≤ c && c ≤ 0xbf) && isCont d && isCont e && isValidUTF8 rest4
                else if 0xf1 ≤ b && b ≤ 0xf3 then
                  isCont c && isCont d && isCont e && isValidUTF8 rest4
                else if b = 0xf4 then
                  (0x80 ≤ c && c ≤ 0x8f) && isCont d && isCont e && isValidUTF8 rest4
                else false

/-! ## The POSIX shared-memory namespace

A finite map from object names to contents, as an association list. The unwrap
transaction touches it through `shm_open(O_CREAT|O_EXCL)` (create empty, fail
if present), `ftruncate` (resize, zero-filling), the mapped `write_all`
(overwrite contents) and `shm_unlink` (remove). -/

/-- The global shared-memory namespace: object name to current contents. -/
abbrev ShmState : Type := List (String × List Nat)

/-- Content of the named object, or `none` if no such object exists. -/
def shmLookup : ShmState → String → Option (List Nat)
  | [], _ => none
  | (nm0, bytes) :: rest, n => if nm0 = n then some bytes else shmLookup rest n

/-- Remove the named object (`shm_unlink`). -/
def shmRemove : ShmState → String → ShmState
  | [], _ => []
  | (nm0, bytes) :: rest, n =>
      if nm0 = n then shmRemove rest n else (nm0, bytes) :: shmRemove rest n

/-- Set the named object's contents, creating it if absent. -/
def shmSet (s : ShmState) (n : String) (v : List Nat) : ShmState :=
  (n, v) :: shmRemove s n

/-! ## The unwrap transaction (`Config::unwrap_keyfile`)

Every interaction with the outside world — the filesystem, the terminal, the
`age` decryption backend and the OS memory primitives — is an explicit oracle
in `Env`; the shared-memory namespace is threaded as state. The observable
calls into the backend and the rollback unlinks are recorded as an event
trace, so that claims about *which* arguments the backend is invoked with are
statements about the trace. -/

/-- Outcome of `age::Decryptor::new` on the envelope bytes: the
passphrase-protected variant, the recipient-bound variant (`Decryptor::
Recipients`), or a parse failure. -/
inductive DecryptorParse
  | passphrase
  | recipients
  | parseError
deriving Repr, DecidableEq

/-- The error taxonomy of `unwrap_keyfile`, one constructor per distinct
`Err` site of the Rust function. -/
inductive UnwrapError
  | nameFailed
  | alreadyExists
  | shmOpenFailed
  | promptFailed
  | keyfileReadFailed
  | loadFailed
  | notPassphraseWrapped
  | decryptionFailed
  | ioDecryptFailed
  | resizeFailed
  | mapFailed
  | makeMutFailed
  | writeFailed
  | unlinkFailed
deriving Repr, DecidableEq

/-- Observable events of one `unwrap_keyfile` run, in order. -/
inductive Event
  | prompt
  | readKeyfile
  | decryptCall (envelope : List Nat) (passphrase : String) (workFactor : Nat)
  | unlink
deriving Repr, DecidableEq

/-- The environment oracle: results of every external interaction of one
`unwrap_keyfile` run. `decrypt` answers for the `age` backend as a function of
the envelope bytes, the passphrase and the scrypt work factor it is handed. -/
structure Env where
  canonicalize : String → Option (List Nat)
  shmOpenOk : Bool
  getPassword : Option String
  readKeyfile : Option (List Nat)
  parseDecryptor : List Nat → DecryptorParse
  decrypt : List Nat → String → Nat → Option (List Nat)
  ftruncateOk : Bool
  mapOk : Bool
  makeMutOk : Bool
  writeOk : Bool
  unlinkOk : Bool

/-- Result, final shared-memory namespace and event trace of one run. On
success the result carries the bytes visible through the returned handle. -/
structure UnwrapOut where
  result : Except UnwrapError (List Nat)
  shm : ShmState
  events : List Event
deriving Repr

-- Decidable equality of run results, so that concrete runs evaluate.
deriving instance DecidableEq for Except

/-- The `or_else` rollback arm used at every guarded failure site of
`unwrap_keyfile`: `shm_unlink` the entry and propagate the originating error,
or propagate the unlink failure itself (the closure's `?` on `shm_unlink`). -/
def rollback (shm : ShmState) (nm : String) (err : UnwrapError) (unlinkOk : Bool)
    (evs : List Event) : UnwrapOut :=
  if unlinkOk then ⟨.error err, shmRemove shm nm, evs ++ [.unlink]⟩
  else ⟨.error .unlinkFailed, shm, evs ++ [.unlink]⟩

/-- The unwrap transaction, embedding `Config::unwrap_keyfile` step for step:
derive the name; `shm_open(O_RDWR|O_CREAT|O_EXCL)` (an existing entry is the
`EEXIST` arm, any other failure the generic arm); prompt; read the keyfile;
`Decryptor::new`; `decrypt(&password, Some(18))` with `read_to_string` turning
non-UTF-8 plaintext into an error; `ftruncate` to the plaintext byte length;
`Mmap::map` — whose failure the source propagates with a bare `?`, with no
rollback arm — then `make_mut`, then `write_all`, each with rollback. -/
def unwrap_keyfile (cfg : Config) (env : Env) (shm : ShmState) : UnwrapOut :=
  match unwrapped_key_shm_name env.canonicalize cfg with
  | none => ⟨.error .nameFailed, shm, []⟩
  | some shm_name =>
    match shmLookup shm shm_name with
    | some _ => ⟨.error .alreadyExists, shm, []⟩
    | none =>
      if env.shmOpenOk = false then ⟨.error .shmOpenFailed, shm, []⟩
      else
        let shm1 := shmSet shm shm_name []
        match env.getPassword with
        | none => rollback shm1 shm_name .promptFailed env.unlinkOk [.prompt]
        | some password =>
          match env.readKeyfile with
          | none => rollback shm1 shm_name .keyfileReadFailed env.unlinkOk
              [.prompt, .readKeyfile]
          | some wrapped_key =>
            match env.parseDecryptor wrapped_key with
            | .parseError => rollback shm1 shm_name .loadFailed env.unlinkOk
                [.prompt, .readKeyfile]
            | .recipients => rollback shm1 shm_name .notPassphraseWrapped env.unlinkOk
                [.prompt, .readKeyfile]
            | .passphrase =>
              let evs := [.prompt, .readKeyfile, .decryptCall wrapped_key password 18]
              match env.decrypt wrapped_key password 18 with
              | none => rollback shm1 shm_name .decryptionFailed env.unlinkOk evs
              | some unwrapped_key =>
                if isValidUTF8 unwrapped_key = false then
                  rollback shm1 shm_name .ioDecryptFailed env.unlinkOk evs
                else if env.ftruncateOk = false then
                  rollback shm1 shm_name .resizeFailed env.unlinkOk evs
                else
                  let shm2 := shmSet shm1 shm_name (List.replicate unwrapped_key.length 0)
                  if env.mapOk = false then ⟨.error .mapFailed, shm2, evs⟩
                  else if env.makeMutOk = false then
                    rollback shm2 shm_name .makeMutFailed env.unlinkOk evs
                  else if env.writeOk = false then
                    rollback shm2 shm_name .writeFailed env.unlinkOk evs
                  else ⟨.ok unwrapped_key, shmSet shm2 shm_name unwrapped_key, evs⟩

/-- The errors whose `Err` sites in `unwrap_keyfile` sit inside an `or_else`
rollback arm: every post-creation failure except the bare-`?` `Mmap::map`
propagation (and except the unlink failure replacing one of these). -/
def isRollbackGuardedError (e : UnwrapError) : Bool :=
  match e with
  | .promptFailed | .keyfileReadFailed | .loadFailed | .notPassphraseWrapped
  | .decryptionFailed | .ioDecryptFailed | .resizeFailed | .makeMutFailed
  | .writeFailed => true
  | _ => false

/-! ## Concrete fixtures

One concrete configuration and environment family, used to instantiate the
general theorems on evaluable inputs. The canonical path is the two bytes of
`/k`; its shm name (computed by the definitions above) is the 31-byte string
held in `nameVal0`. -/

/-- A concrete configuration. -/
def cfg0 : Config :=
  ⟨"/home/user/.config/kbs2", "age1fixture", "/home/user/.config/kbs2/key", true,
   "/home/user/.local/share/kbs2"⟩

/-- A canonicalization oracle mapping the keyfile to the canonical path `/k`. -/
def canon0 : String → Option (List Nat) := fun _ => some [47, 107]

/-- The shm object name derived from canonical path `/k`. -/
def nameVal0 : String := "/_kbs2_uk_399a8038ab60c59b5ed40"

/-- A concrete plaintext key: the bytes of `age`. -/
def plain0 : List Nat := [97, 103, 101]

/-- An all-success environment. -/
def env0 : Env :=
  ⟨canon0, true, some "hunter2", some [1, 2, 3], fun _ => DecryptorParse.passphrase,
   fun _ _ _ => some plain0, true, true, true, true, true⟩

/-- An environment in which decryption yields an empty plaintext and the
`Mmap::map` call fails — exactly what a zero-length shared-memory object
produces, since mapping a zero-length file is an error in the `memmap`
crate. -/
def envMapFail : Env :=
  ⟨canon0, true, some "hunter2", some [1, 2, 3], fun _ => DecryptorParse.passphrase,
   fun _ _ _ => some [], true, false, true, true, true⟩

/-- An environment in which the passphrase prompt fails and the rollback
unlink fails as well. -/
def envUnlinkFail : Env :=
  ⟨canon0, true, none, some [1, 2, 3], fun _ => DecryptorParse.passphrase,
   fun _ _ _ => some plain0, true, true, true, true, false⟩

/-- An environment in which the envelope parses to the recipient-bound
(non-passphrase) decryptor variant. -/
def envRecip : Env :=
  ⟨canon0, true, some "hunter2", some [1, 2, 3], fun _ => DecryptorParse.recipients,
   fun _ _ _ => some plain0, true, true, true, true, true⟩

/-- An environment in which decryption succeeds but yields a byte string that
is not valid UTF-8. -/
def envBadUTF8 : Env :=
  ⟨canon0, true, some "hunter2", some [1, 2, 3], fun _ => DecryptorParse.passphrase,
   fun _ _ _ => some [255], true, true, true, true, true⟩

/-- A second spelling of the same keyfile (a relative path); the fixture
canonicalization oracle resolves it to the same canonical path. -/
def cfgRel : Config :=
  ⟨"/home/user/.config/kbs2", "age1fixture", "../.config/kbs2/key", true,
   "/home/user/.local/share/kbs2"⟩

/-! ## Basic facts about the digest, the hex encoding and the namespace -/

/-- The digest always holds exactly 32 bytes. -/
theorem sha256_length (msg : List Nat) : (sha256 msg).length = 32 := rfl

/-- FIPS 180-4 test vector: the digest of the empty message. -/
theorem sha256_empty_vector :
    sha256 [] =
      [0xe3, 0xb0, 0xc4, 0x42, 0x98, 0xfc, 0x1c, 0x14,
       0x9a, 0xfb, 0xf4, 0xc8, 0x99, 0x6f, 0xb9, 0x24,
       0x27, 0xae, 0x41, 0xe4, 0x64, 0x9b, 0x93, 0x4c,
       0xa4, 0x95, 0x99, 0x1b, 0x78, 0x52, 0xb8, 0x55] := by decide

/-- FIPS 180-4 test vector: the digest of the three-byte message `abc`. -/
theorem sha256_abc_vector :
    sha256 [0x61, 0x62, 0x63] =
      [0xba, 0x78, 0x16, 0xbf, 0x8f, 0x01, 0xcf, 0xea,
       0x41, 0x41, 0x40, 0xde, 0x5d, 0xae, 0x22, 0x23,
       0xb0, 0x03, 0x61, 0xa3, 0x96, 0x17, 0x7a, 0x9c,
       0xb4, 0x10, 0xff, 0x61, 0xf2, 0x00, 0x15, 0xad] := by decide

/-- Hex encoding doubles the length. -/
theorem hexEncode_length (l : List Nat) : (hexEncode l).length = 2 * l.length := by
  induction l with
  | nil => simp [hexEncode]
  | cons b rest ih =>
      simp only [hexEncode, byteToHex, List.length_append, List.length_cons,
        List.length_nil, ih]
      omega

/-- Every hex digit is a one-byte (ASCII) character. -/
theorem nibbleChar_utf8Size (n : Nat) (h : n < 16) : (nibbleChar n).utf8Size = 1 := by
  revert n h
  decide

/-- Every character the hex encoder emits is a one-byte (ASCII) character. -/
theorem mem_hexEncode_utf8Size (bs : List Nat) (c : Char) (hc : c ∈ hexEncode bs) :
    c.utf8Size = 1 := by
  induction bs with
  | nil => cases hc
  | cons b rest ih =>
      simp only [hexEncode, byteToHex, List.mem_append, List.mem_cons,
        List.not_mem_nil, or_false] at hc
      rcases hc with (hd | hd) | hd
      · exact hd ▸ nibbleChar_utf8Size _ (Nat.mod_lt _ (by decide))
      · exact hd ▸ nibbleChar_utf8Size _ (Nat.mod_lt _ (by decide))
      · exact ih hd

/-- Unlinking removes the looked-up entry. -/
theorem shmLookup_shmRemove (s : ShmState) (n : String) :
    shmLookup (shmRemove s n) n = none := by
  induction s with
  | nil => rfl
  | cons kv rest ih =>
      obtain ⟨nm0, bytes⟩ := kv
      by_cases h : nm0 = n <;> simp [shmRemove, shmLookup, h, ih]

/-- Setting an entry makes it the looked-up value. -/
theorem shmLookup_shmSet (s : ShmState) (n : String) (v : List Nat) :
    shmLookup (shmSet s n v) n = some v := by
  simp [shmSet, shmLookup]

/-! ## Shared characterizations of the unwrap transaction -/

/-- Characterization of a successful run: the cache entry under the derived
name holds exactly the plaintext the backend returned, which is valid UTF-8
and is the decryption of the keyfile bytes under the prompted passphrase at
work factor 18. -/
theorem unwrap_success_char (cfg : Config) (env : Env) (shm : ShmState)
    (nm : String) (k : List Nat)
    (hnm : unwrapped_key_shm_name env.canonicalize cfg = some nm) :
    (unwrap_keyfile cfg env shm).result = .ok k →
    shmLookup (unwrap_keyfile cfg env shm).shm nm = some k ∧
    isValidUTF8 k = true ∧
    (∃ pw wk, env.getPassword = some pw ∧ env.readKeyfile = some wk ∧
      env.parseDecryptor wk = .passphrase ∧ env.decrypt wk pw 18 = some k) := by
  simp only [unwrap_keyfile, rollback]
  rw [hnm]
  repeat' split
  all_goals intro h
  all_goals simp_all [shmLookup_shmSet, shmLookup_shmRemove]

/-- Every failure whose `Err` site sits inside an `or_else` rollback arm
leaves no cache entry under the derived name. (The `Mmap::map` failure is not
among these: its `?` has no rollback arm in the source.) -/
theorem unwrap_rollback_clears (cfg : Config) (env : Env) (shm : ShmState)
    (nm : String) (e : UnwrapError)
    (hnm : unwrapped_key_shm_name env.canonicalize cfg = some nm)
    (he : isRollbackGuardedError e = true) :
    (unwrap_keyfile cfg env shm).result = .error e →
    shmLookup (unwrap_keyfile cfg env shm).shm nm = none := by
  simp only [unwrap_keyfile, rollback]
  rw [hnm]
  repeat' split
  all_goals intro h
  all_goals first
    | (injection h with h2
       subst h2
       simp_all [shmLookup_shmSet, shmLookup_shmRemove, isRollbackGuardedError])
    | injection h

/-- A run against a namespace that already holds the derived name fails with
`alreadyExists`, leaves the namespace untouched, and performs no observable
external interaction. -/
theorem unwrap_already (cfg : Config) (env : Env) (shm : ShmState)
    (nm : String) (v : List Nat)
    (hnm : unwrapped_key_shm_name env.canonicalize cfg = some nm)
    (hv : shmLookup shm nm = some v) :
    (unwrap_keyfile cfg env shm).result = .error .alreadyExists ∧
    (unwrap_keyfile cfg env shm).shm = shm ∧
    (unwrap_keyfile cfg env shm).events = [] := by
  simp only [unwrap_keyfile, rollback]
  rw [hnm]
  simp [hv]

/-- The source naming scheme agrees with the specification's wording of the
construction, step for step. -/
theorem shm_name_eq (canonicalize : String → Option (List Nat)) (cfg : Config)
    (c : List Nat) (h : canonicalize cfg.keyfile = some c) :
    unwrapped_key_shm_name canonicalize cfg = some (spec_shm_name c) := by
  unfold unwrapped_key_shm_name spec_shm_name strTruncate
  rw [h]
  have h1 : UNWRAPPED_KEY_SHM_BASENAME ++ "_" = "/_kbs2_uk_" := rfl
  rw [h1]
  congr 1

/-- On a list of one-byte characters, the UTF-8 byte count is the length. -/
theorem utf8go_ascii (l : List Char) (h : ∀ ch ∈ l, ch.utf8Size = 1) :
    String.utf8ByteSize.go l = l.length := by
  induction l with
  | nil => rfl
  | cons ch rest ih =>
      simp only [String.utf8ByteSize.go, h ch (List.mem_cons_self ch rest),
        ih (fun y hy => h y (List.mem_cons_of_mem _ hy)), List.length_cons]

/-- The namespace tag is ten characters. -/
theorem tenTag : ("/_kbs2_uk_".data).length = 10 := by decide

/-- Shape of the spec-worded name: exactly 31 ASCII characters (so 31 bytes),
the ten-character tag followed by the first 21 hex digits of the digest. -/
theorem shape_spec (c : List Nat) :
    (spec_shm_name c).length = 31 ∧
    (spec_shm_name c).utf8ByteSize = 31 ∧
    (spec_shm_name c).data.take 10 = "/_kbs2_uk_".data ∧
    (spec_shm_name c).data.drop 10 = (hexEncode (sha256 c)).take 21 := by
  have hlen : (hexEncode (sha256 c)).length = 64 := by
    rw [hexEncode_length, sha256_length]
  have hdata : (spec_shm_name c).data
      = ("/_kbs2_uk_".data ++ hexEncode (sha256 c)).take 31 := rfl
  have htake : ("/_kbs2_uk_".data ++ hexEncode (sha256 c)).take 31
      = "/_kbs2_uk_".data ++ (hexEncode (sha256 c)).take 21 := by
    rw [List.take_append_eq_append_take,
      show (31 - ("/_kbs2_uk_".data).length) = 21 from by decide,
      show List.take 31 ("/_kbs2_uk_".data) = "/_kbs2_uk_".data from by decide]
  have hlen31 : (spec_shm_name c).data.length = 31 := by
    rw [hdata, htake, List.length_append, tenTag, List.length_take, hlen]
    decide
  refine ⟨hlen31, ?_, ?_, ?_⟩
  · have hTag : ∀ ch ∈ ("/_kbs2_uk_".data), ch.utf8Size = 1 := by decide
    have hall : ∀ ch ∈ (spec_shm_name c).data, ch.utf8Size = 1 := by
      rw [hdata, htake]
      intro ch hch
      rcases List.mem_append.mp hch with hch | hch
      · exact hTag ch hch
      · exact mem_hexEncode_utf8Size _ _ (List.take_subset _ _ hch)
    show String.utf8ByteSize.go (spec_shm_name c).data = 31
    rw [utf8go_ascii _ hall]
    exact hlen31
  · rw [hdata, htake, show (10 : Nat) = ("/_kbs2_uk_".data).length from rfl,
      List.take_left]
  · rw [hdata, htake, show (10 : Nat) = ("/_kbs2_uk_".data).length from rfl,
      List.drop_left]

/-! ## The claims -/

set_option maxRecDepth 100000 in
/-- C1: the claim states that every post-creation failure — including a map
failure — unlinks the cache entry before the error is returned, so a
subsequent unwrap can create a fresh entry. The code violates this at the
`Mmap::map(&file)?` site (config.rs line 268), whose bare `?` propagates the
map error with no rollback arm. Evaluated here at a concrete input that
realizes the path (empty decrypted plaintext, so the zero-length mapping
fails): the run fails with the map error, the empty entry remains in the
namespace, and a subsequent otherwise-healthy unwrap of the same key file
fails with `alreadyExists` instead of creating a fresh entry. -/
theorem unwrap_mapfail_entry_remains :
    (unwrap_keyfile cfg0 envMapFail []).result = .error .mapFailed ∧
    shmLookup (unwrap_keyfile cfg0 envMapFail []).shm nameVal0 = some [] ∧
    (unwrap_keyfile cfg0 env0 (unwrap_keyfile cfg0 envMapFail []).shm).result
      = .error .alreadyExists := by decide

/-- C2: exactness of the populated cache entry — whenever `unwrap_keyfile`
returns success with key bytes `k`, the cache entry under the derived name
holds exactly `k` (hence has exactly `k`'s byte length), and `k` is exactly
what the decryption backend produced for the read envelope and prompted
passphrase. -/
theorem unwrap_success_exact (cfg : Config) (env : Env) (shm : ShmState)
    (nm : String) (k : List Nat)
    (hnm : unwrapped_key_shm_name env.canonicalize cfg = some nm) :
    (unwrap_keyfile cfg env shm).result = .ok k →
    shmLookup (unwrap_keyfile cfg env shm).shm nm = some k ∧
    (∃ pw wk, env.getPassword = some pw ∧ env.readKeyfile = some wk ∧
      env.parseDecryptor wk = .passphrase ∧ env.decrypt wk pw 18 = some k) := by
  intro h
  have hc := unwrap_success_char cfg env shm nm k hnm h
  exact ⟨hc.1, hc.2.2⟩

set_option maxRecDepth 100000 in
/-- Witness for C2 at the all-success fixture environment. -/
theorem unwrap_success_exact_witness :
    unwrapped_key_shm_name env0.canonicalize cfg0 = some nameVal0 ∧
    (unwrap_keyfile cfg0 env0 []).result = .ok plain0 ∧
    (shmLookup (unwrap_keyfile cfg0 env0 []).shm nameVal0 = some plain0 ∧
     (∃ pw wk, env0.getPassword = some pw ∧ env0.readKeyfile = some wk ∧
       env0.parseDecryptor wk = .passphrase ∧ env0.decrypt wk pw 18 = some plain0)) :=
  ⟨by decide, by decide,
   unwrap_success_exact cfg0 env0 [] nameVal0 plain0 (by decide) (by decide)⟩

/-- C3: exclusive creation — if an entry with the derived name already
exists, the call fails with `alreadyExists` without touching the namespace
and without any external interaction (no prompt, no keyfile read, no decrypt
call); consequently two calls in immediate succession yield success then
`alreadyExists`, with the entry's contents unchanged by the second call. -/
theorem unwrap_exclusive_create (cfg : Config) (env : Env) (shm : ShmState)
    (nm : String)
    (hnm : unwrapped_key_shm_name env.canonicalize cfg = some nm) :
    (∀ v, shmLookup shm nm = some v →
      (unwrap_keyfile cfg env shm).result = .error .alreadyExists ∧
      (unwrap_keyfile cfg env shm).shm = shm ∧
      (unwrap_keyfile cfg env shm).events = []) ∧
    (∀ k, (unwrap_keyfile cfg env shm).result = .ok k →
      (unwrap_keyfile cfg env (unwrap_keyfile cfg env shm).shm).result
        = .error .alreadyExists ∧
      (unwrap_keyfile cfg env (unwrap_keyfile cfg env shm).shm).shm
        = (unwrap_keyfile cfg env shm).shm ∧
      shmLookup (unwrap_keyfile cfg env (unwrap_keyfile cfg env shm).shm).shm nm
        = some k) := by
  constructor
  · intro v hv
    exact unwrap_already cfg env shm nm v hnm hv
  · intro k hk
    have hs := unwrap_success_char cfg env shm nm k hnm hk
    have h2 := unwrap_already cfg env (unwrap_keyfile cfg env shm).shm nm k hnm hs.1
    refine ⟨h2.1, h2.2.1, ?_⟩
    rw [h2.2.1]
    exact hs.1

set_option maxRecDepth 100000 in
/-- Witness for C3 at a namespace that already holds the fixture entry. -/
theorem unwrap_exclusive_create_witness :
    unwrapped_key_shm_name env0.canonicalize cfg0 = some nameVal0 ∧
    shmLookup [(nameVal0, plain0)] nameVal0 = some plain0 ∧
    ((unwrap_keyfile cfg0 env0 [(nameVal0, plain0)]).result = .error .alreadyExists ∧
     (unwrap_keyfile cfg0 env0 [(nameVal0, plain0)]).shm = [(nameVal0, plain0)] ∧
     (unwrap_keyfile cfg0 env0 [(nameVal0, plain0)]).events = []) :=
  ⟨by decide, by decide,
   (unwrap_exclusive_create cfg0 env0 [(nameVal0, plain0)] nameVal0
     (by decide)).1 plain0 (by decide)⟩

/-- C4: naming determinism — two keyfile paths that canonicalize identically
yield identical identifiers; the identifier depends only on the canonical
form of the path. -/
theorem shm_name_deterministic (canonicalize : String → Option (List Nat))
    (cfg1 cfg2 : Config)
    (h : canonicalize cfg1.keyfile = canonicalize cfg2.keyfile) :
    unwrapped_key_shm_name canonicalize cfg1
      = unwrapped_key_shm_name canonicalize cfg2 := by
  unfold unwrapped_key_shm_name
  rw [h]

/-- Witness for C4: an absolute and a relative spelling of the same file. -/
theorem shm_name_deterministic_witness :
    canon0 cfg0.keyfile = canon0 cfgRel.keyfile ∧
    unwrapped_key_shm_name canon0 cfg0 = unwrapped_key_shm_name canon0 cfgRel :=
  ⟨rfl, shm_name_deterministic canon0 cfg0 cfgRel rfl⟩

/-- C5: naming construction — for every keyfile whose canonicalization
succeeds, the identifier equals the spec-worded construction: the fixed
namespace tag prepended to the hex encoding of the SHA-256 digest of the
canonical path's raw bytes, prefix-truncated to the 31-byte platform limit. -/
theorem shm_name_construction (canonicalize : String → Option (List Nat))
    (cfg : Config) (c : List Nat) (h : canonicalize cfg.keyfile = some c) :
    unwrapped_key_shm_name canonicalize cfg = some (spec_shm_name c) :=
  shm_name_eq canonicalize cfg c h

/-- Witness for C5 at the fixture canonical path. -/
theorem shm_name_construction_witness :
    canon0 cfg0.keyfile = some [47, 107] ∧
    unwrapped_key_shm_name canon0 cfg0 = some (spec_shm_name [47, 107]) :=
  ⟨rfl, shm_name_construction canon0 cfg0 [47, 107] rfl⟩

/-- C6: a rollback unlink failure is never swallowed — on every run that
attempts the rollback unlink (the unlink event is in the trace) while the
unlink fails, the call returns the distinct unlink-failure error. -/
theorem unwrap_unlink_failure_surfaced (cfg : Config) (env : Env)
    (shm : ShmState)
    (hu : env.unlinkOk = false)
    (hev : Event.unlink ∈ (unwrap_keyfile cfg env shm).events) :
    (unwrap_keyfile cfg env shm).result = .error .unlinkFailed := by
  revert hev
  simp only [unwrap_keyfile, rollback]
  repeat' split
  all_goals intro hev
  all_goals simp_all

set_option maxRecDepth 100000 in
/-- Witness for C6: the prompt fails and the rollback unlink fails too. -/
theorem unwrap_unlink_failure_surfaced_witness :
    envUnlinkFail.unlinkOk = false ∧
    Event.unlink ∈ (unwrap_keyfile cfg0 envUnlinkFail []).events ∧
    (unwrap_keyfile cfg0 envUnlinkFail []).result = .error .unlinkFailed :=
  ⟨rfl, by decide,
   unwrap_unlink_failure_surfaced cfg0 envUnlinkFail [] rfl (by decide)⟩

/-- C7: fixed decryption cost — every invocation of the decryption backend
recorded in the trace carries the constant work factor 18 (independent of the
envelope bytes), the envelope read from the keyfile and the prompted
passphrase. -/
theorem unwrap_decrypt_fixed_cost (cfg : Config) (env : Env) (shm : ShmState)
    (wk : List Nat) (pw : String) (wf : Nat)
    (hev : Event.decryptCall wk pw wf ∈ (unwrap_keyfile cfg env shm).events) :
    wf = 18 ∧ env.getPassword = some pw ∧ env.readKeyfile = some wk := by
  revert hev
  simp only [unwrap_keyfile, rollback]
  repeat' split
  all_goals intro hev
  all_goals simp_all

set_option maxRecDepth 100000 in
/-- Witness for C7 at the all-success fixture run. -/
theorem unwrap_decrypt_fixed_cost_witness :
    Event.decryptCall [1, 2, 3] "hunter2" 18 ∈ (unwrap_keyfile cfg0 env0 []).events ∧
    (18 = 18 ∧ env0.getPassword = some "hunter2" ∧ env0.readKeyfile = some [1, 2, 3]) :=
  ⟨by decide,
   unwrap_decrypt_fixed_cost cfg0 env0 [] [1, 2, 3] "hunter2" 18 (by decide)⟩

/-- C8: non-passphrase envelope rejection — when the envelope parses to the
recipient-bound variant, the run unlinks the just-created entry, fails with
the not-passphrase-wrapped error, and never invokes the decryption backend. -/
theorem unwrap_not_passphrase_rejected (cfg : Config) (env : Env)
    (shm : ShmState) (nm : String) (pw : String) (wk : List Nat)
    (hnm : unwrapped_key_shm_name env.canonicalize cfg = some nm)
    (hfree : shmLookup shm nm = none)
    (hopen : env.shmOpenOk = true)
    (hpw : env.getPassword = some pw)
    (hrd : env.readKeyfile = some wk)
    (hparse : env.parseDecryptor wk = .recipients)
    (hul : env.unlinkOk = true) :
    (unwrap_keyfile cfg env shm).result = .error .notPassphraseWrapped ∧
    shmLookup (unwrap_keyfile cfg env shm).shm nm = none ∧
    ∀ a b w, Event.decryptCall a b w ∉ (unwrap_keyfile cfg env shm).events := by
  simp only [unwrap_keyfile, rollback]
  rw [hnm]
  simp [hfree, hopen, hpw, hrd, hparse, hul, shmLookup_shmRemove, shmLookup_shmSet]

set_option maxRecDepth 100000 in
/-- Witness for C8 at the recipient-bound fixture environment. -/
theorem unwrap_not_passphrase_rejected_witness :
    unwrapped_key_shm_name envRecip.canonicalize cfg0 = some nameVal0 ∧
    ((unwrap_keyfile cfg0 envRecip []).result = .error .notPassphraseWrapped ∧
     shmLookup (unwrap_keyfile cfg0 envRecip []).shm nameVal0 = none ∧
     ∀ a b w, Event.decryptCall a b w ∉ (unwrap_keyfile cfg0 envRecip []).events) :=
  ⟨by decide,
   unwrap_not_passphrase_rejected cfg0 envRecip [] nameVal0 "hunter2" [1, 2, 3]
     (by decide) rfl rfl rfl rfl rfl rfl⟩

/-- C9: the identifier is always exactly 31 bytes — 31 ASCII characters —
beginning with the ten-byte tag followed by the first 21 hex digits of the
SHA-256 digest of the canonical path. -/
theorem shm_name_exact_shape (canonicalize : String → Option (List Nat))
    (cfg : Config) (c : List Nat) (s : String)
    (hc : canonicalize cfg.keyfile = some c)
    (hs : unwrapped_key_shm_name canonicalize cfg = some s) :
    s.length = 31 ∧ s.utf8ByteSize = 31 ∧
    s.data.take 10 = "/_kbs2_uk_".data ∧
    s.data.drop 10 = (hexEncode (sha256 c)).take 21 := by
  have h1 := shm_name_eq canonicalize cfg c hc
  rw [hs] at h1
  injection h1 with h1
  rw [h1]
  exact shape_spec c

set_option maxRecDepth 100000 in
/-- Witness for C9 at the fixture canonical path. -/
theorem shm_name_exact_shape_witness :
    canon0 cfg0.keyfile = some [47, 107] ∧
    unwrapped_key_shm_name canon0 cfg0 = some nameVal0 ∧
    (nameVal0.length = 31 ∧ nameVal0.utf8ByteSize = 31 ∧
     nameVal0.data.take 10 = "/_kbs2_uk_".data ∧
     nameVal0.data.drop 10 = (hexEncode (sha256 [47, 107])).take 21) :=
  ⟨rfl, by decide,
   shm_name_exact_shape canon0 cfg0 [47, 107] nameVal0 rfl (by decide)⟩

/-- C10: success requires UTF-8 plaintext — a decryption result that is not
valid UTF-8 makes the run unlink the entry and fail (the `read_to_string`
error path), and any key a successful run stores in the cache entry is valid
UTF-8. -/
theorem unwrap_requires_utf8 (cfg : Config) (env : Env) (shm : ShmState)
    (nm : String)
    (hnm : unwrapped_key_shm_name env.canonicalize cfg = some nm) :
    (∀ pw wk bs, shmLookup shm nm = none → env.shmOpenOk = true →
      env.getPassword = some pw → env.readKeyfile = some wk →
      env.parseDecryptor wk = .passphrase → env.decrypt wk pw 18 = some bs →
      isValidUTF8 bs = false → env.unlinkOk = true →
      (unwrap_keyfile cfg env shm).result = .error .ioDecryptFailed ∧
      shmLookup (unwrap_keyfile cfg env shm).shm nm = none) ∧
    (∀ k, (unwrap_keyfile cfg env shm).result = .ok k → isValidUTF8 k = true) := by
  constructor
  · intro pw wk bs hfree hopen hpw hrd hparse hdec hbad hul
    simp only [unwrap_keyfile, rollback]
    rw [hnm]
    simp [hfree, hopen, hpw, hrd, hparse, hdec, hbad, hul, shmLookup_shmRemove]
  · intro k hk
    exact (unwrap_success_char cfg env shm nm k hnm hk).2.1

set_option maxRecDepth 100000 in
/-- Witness for C10: decryption yields the lone byte 255, not valid UTF-8. -/
theorem unwrap_requires_utf8_witness :
    unwrapped_key_shm_name envBadUTF8.canonicalize cfg0 = some nameVal0 ∧
    isValidUTF8 [255] = false ∧
    ((unwrap_keyfile cfg0 envBadUTF8 []).result = .error .ioDecryptFailed ∧
     shmLookup (unwrap_keyfile cfg0 envBadUTF8 []).shm nameVal0 = none) :=
  ⟨by decide, by decide,
   (unwrap_requires_utf8 cfg0 envBadUTF8 [] nameVal0 (by decide)).1
     "hunter2" [1, 2, 3] [255] rfl rfl rfl rfl rfl rfl rfl rfl⟩
